import Mathlib

/-!
Shallow embedding of the OperlyService scheduling/billing core.

Times of day are the parsed form of the source's "HH:mm" strings: a pair of
hour and minute fields (`DateUtils.timeToMinutes` in the source splits the
string on ":" and reads the two integers, so a string and its parsed pair
carry the same information; the source's lexicographic comparisons of
zero-padded "HH:mm" strings coincide with comparison of the minute values).
Calendar dates are days since 1970-01-01 (the source's `new Date(date +
"T12:00:00").getDay()` yields `(epochDay + 4) % 7` because 1970-01-01 was a
Thursday). Money amounts (the source's JS numbers holding decimal currency
values) are rationals. Timestamps ("now", paidAt, dueDate) are abstract
Nat instants ordered by `<`.

The persistence layer is a record of entity lists; prisma `findFirst` is
`List.find?`, `create` appends, `update` maps over the list, `delete`
filters. Row ids are Nats handed out from a counter.
-/

namespace Operly

/-- Clock time, the parsed form of an "HH:mm" string (`hh` hours, `mm`
minutes). Hours may exceed 23: `minutesToTime` in the source happily prints
"25:30" for end times past midnight, exactly as modelled here. -/
structure Time where
  hh : Nat
  mm : Nat
deriving DecidableEq, Repr

namespace DateUtils

/-- `DateUtils.timeToMinutes`: minutes since midnight. -/
def timeToMinutes (t : Time) : Nat :=
  t.hh * 60 + t.mm

/-- `DateUtils.minutesToTime`: back to hour/minute form. -/
def minutesToTime (minutes : Nat) : Time :=
  ⟨minutes / 60, minutes % 60⟩

/-- `DateUtils.addMinutesToTime`. -/
def addMinutesToTime (time : Time) (minutesToAdd : Nat) : Time :=
  minutesToTime (timeToMinutes time + minutesToAdd)

/-- `DateUtils.doTimesOverlap`: half-open interval overlap on minute values. -/
def doTimesOverlap (start1 end1 start2 end2 : Time) : Bool :=
  decide (timeToMinutes start1 < timeToMinutes end2) &&
    decide (timeToMinutes start2 < timeToMinutes end1)

/-- `DateUtils.timeRangesOverlap` just delegates to `doTimesOverlap`. -/
def timeRangesOverlap (start1 end1 start2 end2 : Time) : Bool :=
  doTimesOverlap start1 end1 start2 end2

/-- The while loop of `DateUtils.generateTimeSlots` on minute values:
`while (currentMinutes < closeMinutes) { push; currentMinutes += slotDuration }`.
The source loops forever when `slotDuration = 0`; that case is mapped to `[]`
(no claim touches it). -/
def slotsFrom (currentMinutes closeMinutes slotDuration : Nat) : List Nat :=
  if _h : 0 < slotDuration ∧ currentMinutes < closeMinutes then
    currentMinutes :: slotsFrom (currentMinutes + slotDuration) closeMinutes slotDuration
  else
    []
termination_by closeMinutes - currentMinutes
decreasing_by omega

/-- `DateUtils.generateTimeSlots`: the slot grid between opening and closing
time; each pushed slot is formatted with the same digits `minutesToTime`
produces. -/
def generateTimeSlots (openTime closeTime : Time) (slotDuration : Nat) : List Time :=
  (slotsFrom (timeToMinutes openTime) (timeToMinutes closeTime) slotDuration).map minutesToTime

/-- The source's string comparison `a < b` on zero-padded "HH:mm" strings,
which agrees with comparison of minute values. -/
def timeLtb (a b : Time) : Bool :=
  decide (timeToMinutes a < timeToMinutes b)

end DateUtils

/-- Prisma `DayOfWeek` enum. -/
inductive DayOfWeek
  | SUNDAY | MONDAY | TUESDAY | WEDNESDAY | THURSDAY | FRIDAY | SATURDAY
deriving DecidableEq, BEq, Repr

/-- Prisma `AppointmentStatus` enum. -/
inductive AppointmentStatus
  | PENDING | CONFIRMED | COMPLETED | CANCELLED | NO_SHOW
deriving DecidableEq, BEq, Repr

/-- Prisma `InvoiceStatus` enum. -/
inductive InvoiceStatus
  | DRAFT | PENDING | PARTIAL | PAID | CANCELLED | OVERDUE
deriving DecidableEq, BEq, Repr

/-- Prisma `PaymentMethod` enum. -/
inductive PaymentMethod
  | PIX | CREDIT_CARD | DEBIT_CARD | CASH | TRANSFER | OTHER
deriving DecidableEq, BEq, Repr

/-- `ApiError` of `shared/utils/api-error.ts`, reduced to the constructors the
core services raise; each carries the thrown message. `notFound` is status
404, `badRequest` 400, `conflict` 409. -/
inductive ApiError
  | notFound (msg : String)
  | badRequest (msg : String)
  | conflict (msg : String)
deriving DecidableEq, Repr

/-- `Business` row (columns the core reads). -/
structure Business where
  id : Nat
  workingDays : List DayOfWeek
  openTime : Time
  closeTime : Time
  slotDuration : Nat
deriving DecidableEq, Repr

/-- `Service` row (columns the core reads). -/
structure Service where
  id : Nat
  businessId : Nat
  name : String
  price : ℚ
  duration : Nat
  isActive : Bool
deriving DecidableEq, Repr

/-- `Customer` row (columns the core reads). -/
structure Customer where
  id : Nat
  businessId : Nat
  name : String
  phone : String
deriving DecidableEq, Repr

/-- `Appointment` row. `date` is the calendar day as days since 1970-01-01. -/
structure Appointment where
  id : Nat
  businessId : Nat
  customerId : Nat
  serviceId : Nat
  vehicleId : Option Nat
  date : Nat
  startTime : Time
  endTime : Time
  status : AppointmentStatus
  isFromPublic : Bool
  notes : Option String
deriving DecidableEq, Repr

/-- `InvoiceItem` row, kept nested in its invoice (the core always writes the
items together with the invoice and only reads them back whole). -/
structure InvoiceItem where
  serviceId : Option Nat
  description : String
  quantity : Nat
  unitPrice : ℚ
  total : ℚ
deriving DecidableEq, Repr

/-- `Invoice` row. `number` models the numeric suffix of the source's
"NF-####" display number (the constant prefix and zero padding carry no
information). -/
structure Invoice where
  id : Nat
  businessId : Nat
  customerId : Nat
  appointmentId : Option Nat
  number : Nat
  status : InvoiceStatus
  subtotal : ℚ
  discount : ℚ
  total : ℚ
  paidAmount : ℚ
  issuedAt : Option Nat
  dueDate : Option Nat
  paidAt : Option Nat
  notes : Option String
  items : List InvoiceItem
deriving DecidableEq, Repr

/-- `Payment` row. -/
structure Payment where
  id : Nat
  invoiceId : Nat
  amount : ℚ
  method : PaymentMethod
  paidAt : Nat
  notes : Option String
deriving DecidableEq, Repr

/-- The persistence layer: one list per table, in creation order (prisma
`orderBy createdAt desc` reads a list from its tail), plus the id counter. -/
structure DB where
  businesses : List Business
  services : List Service
  customers : List Customer
  appointments : List Appointment
  invoices : List Invoice
  payments : List Payment
  nextId : Nat
deriving DecidableEq, Repr

/-- `prisma.business.findUnique({ where: { id } })`. -/
def findBusiness (st : DB) (businessId : Nat) : Option Business :=
  st.businesses.find? fun b => b.id == businessId

/-- `prisma.service.findFirst({ where: { id, businessId, isActive: true } })`. -/
def findActiveService (st : DB) (businessId serviceId : Nat) : Option Service :=
  st.services.find? fun s => s.id == serviceId && s.businessId == businessId && s.isActive

/-- `prisma.customer.findFirst({ where: { id, businessId } })`. -/
def findCustomer (st : DB) (businessId customerId : Nat) : Option Customer :=
  st.customers.find? fun c => c.id == customerId && c.businessId == businessId

/-- `prisma.appointment.update`: replace the row with the matching id. -/
def replaceAppointment (st : DB) (a : Appointment) : DB :=
  { st with appointments := st.appointments.map fun x => if x.id == a.id then a else x }

namespace AppointmentsService

/-- `CreateAppointmentInput` (appointments.schemas.ts): fields after zod
validation. -/
structure CreateAppointmentInput where
  customerId : Nat
  serviceId : Nat
  vehicleId : Option Nat
  date : Nat
  startTime : Time
  notes : Option String
deriving DecidableEq, Repr

/-- `UpdateAppointmentInput`: every field optional; `none` leaves the stored
value untouched (prisma ignores `undefined`). -/
structure UpdateAppointmentInput where
  customerId : Option Nat
  serviceId : Option Nat
  vehicleId : Option Nat
  date : Option Nat
  startTime : Option Time
  notes : Option String
deriving DecidableEq, Repr

/-- `AvailableSlotsQuery`. -/
structure AvailableSlotsQuery where
  date : Nat
  serviceId : Option Nat
  duration : Option Nat
deriving DecidableEq, Repr

/-- One entry of the `getAvailableSlots` answer. -/
structure TimeSlot where
  time : Time
  available : Bool
deriving DecidableEq, Repr

/-- `AppointmentsService.getDayOfWeek`: `days[date.getDay()] || 'SUNDAY'`.
For the noon-anchored date object the source builds, `getDay()` of the day
`d` days after 1970-01-01 (a Thursday) is `(d + 4) % 7`, index 0 naming
Sunday. -/
def getDayOfWeek (date : Nat) : DayOfWeek :=
  [DayOfWeek.SUNDAY, .MONDAY, .TUESDAY, .WEDNESDAY, .THURSDAY, .FRIDAY,
    .SATURDAY].getD ((date + 4) % 7) .SUNDAY

/-- `AppointmentsService.checkTimeConflict`: any appointment of the business
on the date, not cancelled, distinct from the excluded id, overlapping the
range. -/
def checkTimeConflict (st : DB) (businessId date : Nat) (startTime endTime : Time)
    (excludeAppointmentId : Option Nat) : Bool :=
  (st.appointments.filter fun a =>
      a.businessId == businessId && a.date == date && a.status != .CANCELLED &&
        (match excludeAppointmentId with
         | some eid => a.id != eid
         | none => true)).any
    fun a => DateUtils.timeRangesOverlap startTime endTime a.startTime a.endTime

/-- `AppointmentsService.create`. The two time comparisons are the source's
string comparisons `data.startTime < business.openTime` and
`endTime > business.closeTime`. -/
def create (st : DB) (businessId : Nat) (data : CreateAppointmentInput)
    (isFromPublic : Bool) : Except ApiError (Appointment × DB) :=
  match findActiveService st businessId data.serviceId with
  | none => .error (.notFound "Serviço não encontrado ou inativo")
  | some service =>
    match findCustomer st businessId data.customerId with
    | none => .error (.notFound "Cliente não encontrado")
    | some _ =>
      let endTime := DateUtils.addMinutesToTime data.startTime service.duration
      match findBusiness st businessId with
      | none => .error (.notFound "Estabelecimento não encontrado")
      | some business =>
        if !(business.workingDays.contains (getDayOfWeek data.date)) then
          .error (.badRequest "O estabelecimento não funciona neste dia")
        else if DateUtils.timeLtb data.startTime business.openTime ||
            DateUtils.timeLtb business.closeTime endTime then
          .error (.badRequest "Horário fora do funcionamento")
        else if checkTimeConflict st businessId data.date data.startTime endTime none then
          .error (.conflict "Já existe um agendamento neste horário")
        else
          let appointment : Appointment :=
            { id := st.nextId
              businessId := businessId
              customerId := data.customerId
              serviceId := data.serviceId
              vehicleId := data.vehicleId
              date := data.date
              startTime := data.startTime
              endTime := endTime
              status := .PENDING
              isFromPublic := isFromPublic
              notes := data.notes }
          .ok (appointment,
            { st with appointments := st.appointments ++ [appointment],
                      nextId := st.nextId + 1 })

/-- `AppointmentsService.getById`: find by id scoped to the business. -/
def getById (st : DB) (appointmentId businessId : Nat) : Except ApiError Appointment :=
  match st.appointments.find? (fun a => a.id == appointmentId && a.businessId == businessId) with
  | none => .error (.notFound "Agendamento não encontrado")
  | some a => .ok a

/-- The end-time recomputation block of `AppointmentsService.update`: when the
service or the start time changes, the (possibly new) service must exist,
be active and belong to the business, and the end time is recomputed from
its duration. -/
def resolveEndTime (st : DB) (businessId : Nat) (existing : Appointment)
    (data : UpdateAppointmentInput) : Except ApiError Time :=
  if data.serviceId.isSome || data.startTime.isSome then
    match findActiveService st businessId (data.serviceId.getD existing.serviceId) with
    | none => .error (.notFound "Serviço não encontrado ou inativo")
    | some service =>
      .ok (DateUtils.addMinutesToTime (data.startTime.getD existing.startTime) service.duration)
  else
    .ok existing.endTime

/-- The customer-ownership block of `AppointmentsService.update`: validated
only when a new customer id is given. -/
def validateCustomerIfGiven (st : DB) (businessId : Nat) (customerId : Option Nat) :
    Except ApiError Unit :=
  match customerId with
  | none => .ok ()
  | some cid =>
    match findCustomer st businessId cid with
    | none => .error (.notFound "Cliente não encontrado")
    | some _ => .ok ()

/-- `AppointmentsService.update`. Note it never revisits the business's
working days or open/close hours: only the status guard, the service/customer
lookups and the overlap check (excluding the appointment itself) run. -/
def update (st : DB) (appointmentId businessId : Nat) (data : UpdateAppointmentInput) :
    Except ApiError (Appointment × DB) :=
  match getById st appointmentId businessId with
  | .error e => .error e
  | .ok existing =>
    if existing.status = .COMPLETED ∨ existing.status = .CANCELLED then
      .error (.badRequest "Não é possível alterar agendamento concluído ou cancelado")
    else
      match resolveEndTime st businessId existing data with
      | .error e => .error e
      | .ok endTime =>
        if (data.date.isSome || data.startTime.isSome) &&
            checkTimeConflict st businessId (data.date.getD existing.date)
              (data.startTime.getD existing.startTime) endTime (some appointmentId) then
          .error (.conflict "Já existe um agendamento neste horário")
        else
          match validateCustomerIfGiven st businessId data.customerId with
          | .error e => .error e
          | .ok _ =>
            let updated : Appointment :=
              { existing with
                  customerId := data.customerId.getD existing.customerId
                  serviceId := data.serviceId.getD existing.serviceId
                  vehicleId := (data.vehicleId.map some).getD existing.vehicleId
                  date := data.date.getD existing.date
                  startTime := data.startTime.getD existing.startTime
                  endTime := endTime
                  notes := (data.notes.map some).getD existing.notes }
            .ok (updated, replaceAppointment st updated)

/-- `AppointmentsService.updateStatus`: the only transition guards the source
has are the two below; everything else is written through. -/
def updateStatus (st : DB) (appointmentId businessId : Nat) (status : AppointmentStatus) :
    Except ApiError (Appointment × DB) :=
  match getById st appointmentId businessId with
  | .error e => .error e
  | .ok existing =>
    if existing.status = .CANCELLED then
      .error (.badRequest "Não é possível alterar agendamento cancelado")
    else if existing.status = .COMPLETED ∧ status ≠ .COMPLETED then
      .error (.badRequest "Não é possível reverter agendamento concluído")
    else
      let updated := { existing with status := status }
      .ok (updated, replaceAppointment st updated)

/-- The duration-resolution block of `AppointmentsService.getAvailableSlots`:
the default is overridden by the service's duration when `serviceId` is
given and resolves, and by the explicit duration only in the `else if`
branch, i.e. only when no `serviceId` was given at all. -/
def resolveSlotDuration (st : DB) (businessId : Nat) (business : Business)
    (query : AvailableSlotsQuery) : Nat :=
  match query.serviceId with
  | some sid =>
    match findActiveService st businessId sid with
    | some service => service.duration
    | none => business.slotDuration
  | none =>
    match query.duration with
    | some d => d
    | none => business.slotDuration

/-- `AppointmentsService.getAvailableSlots`. `today` is the epoch day and
`nowTime` the clock time of the wall clock at the call. -/
def getAvailableSlots (st : DB) (businessId : Nat) (query : AvailableSlotsQuery)
    (today : Nat) (nowTime : Time) : Except ApiError (List TimeSlot) :=
  match findBusiness st businessId with
  | none => .error (.notFound "Estabelecimento não encontrado")
  | some business =>
    let duration := resolveSlotDuration st businessId business query
    if !(business.workingDays.contains (getDayOfWeek query.date)) then
      .ok []
    else
      let allSlots := DateUtils.generateTimeSlots business.openTime business.closeTime duration
      let existing := st.appointments.filter fun a =>
        a.businessId == businessId && a.date == query.date && a.status != .CANCELLED
      .ok (allSlots.map fun time =>
        let slotEnd := DateUtils.addMinutesToTime time duration
        let hasConflict := existing.any fun a =>
          DateUtils.timeRangesOverlap time slotEnd a.startTime a.endTime
        let isPast := query.date == today && DateUtils.timeLtb time nowTime
        { time := time, available := !hasConflict && !isPast })

end AppointmentsService

/-- `prisma.invoice.update`: replace the row with the matching id. -/
def replaceInvoice (st : DB) (inv : Invoice) : DB :=
  { st with invoices := st.invoices.map fun x => if x.id == inv.id then inv else x }

namespace BillingService

/-- `AddPaymentInput` (billing.schemas.ts). -/
structure AddPaymentInput where
  amount : ℚ
  method : PaymentMethod
  paidAt : Option Nat
  notes : Option String
deriving DecidableEq, Repr

/-- One item of `CreateInvoiceInput`. -/
structure InvoiceItemInput where
  serviceId : Option Nat
  description : String
  quantity : Nat
  unitPrice : ℚ
deriving DecidableEq, Repr

/-- `CreateInvoiceInput`. -/
structure CreateInvoiceInput where
  customerId : Nat
  appointmentId : Option Nat
  items : List InvoiceItemInput
  discount : ℚ
  dueDate : Option Nat
  notes : Option String
  autoIssue : Bool
deriving DecidableEq, Repr

/-- `CreateInvoiceFromAppointmentInput`. -/
structure CreateInvoiceFromAppointmentInput where
  appointmentId : Nat
  discount : Option ℚ
  dueDate : Option Nat
  notes : Option String
  autoIssue : Bool
deriving DecidableEq, Repr

/-- `prisma.invoice.findFirst({ where: { id, businessId } })`, the lookup
every Billing operation starts with. -/
def findInvoice (st : DB) (businessId invoiceId : Nat) : Option Invoice :=
  st.invoices.find? fun i => i.id == invoiceId && i.businessId == businessId

/-- `prisma.invoice.findFirst({ where: { appointmentId } })`: the 1:1
appointment-link check (note: not scoped by business in the source). -/
def invoiceForAppointment (st : DB) (appointmentId : Nat) : Option Invoice :=
  st.invoices.find? fun i => i.appointmentId == some appointmentId

/-- The payments of one invoice still on record. -/
def paymentsOf (st : DB) (invoiceId : Nat) : List Payment :=
  st.payments.filter fun p => p.invoiceId == invoiceId

/-- `invoice.payments.reduce((sum, p) => sum + Number(p.amount), 0)`. -/
def paymentsSum (st : DB) (invoiceId : Nat) : ℚ :=
  (paymentsOf st invoiceId).foldl (fun sum p => sum + p.amount) 0

/-- The status cascade of `BillingService.updateInvoiceStatus`, word for
word: PAID once the paid total reaches the invoice total, else PARTIAL on
any positive paid total, else OVERDUE for a PENDING invoice past its due
date, else the stored status stands. There is no branch for CANCELLED. -/
def deriveStatus (prior : InvoiceStatus) (total totalPaid : ℚ) (dueDate : Option Nat)
    (now : Nat) : InvoiceStatus :=
  if total ≤ totalPaid then .PAID
  else if 0 < totalPaid then .PARTIAL
  else
    match dueDate with
    | some d => if d < now ∧ prior = .PENDING then .OVERDUE else prior
    | none => prior

/-- `BillingService.updateInvoiceStatus`: recompute the paid total from the
payments on record and write total, status and paidAt back. -/
def updateInvoiceStatus (st : DB) (invoiceId now : Nat) : DB :=
  match st.invoices.find? (fun i => i.id == invoiceId) with
  | none => st
  | some invoice =>
    let totalPaid := paymentsSum st invoiceId
    let newStatus := deriveStatus invoice.status invoice.total totalPaid invoice.dueDate now
    replaceInvoice st
      { invoice with
          paidAmount := totalPaid
          status := newStatus
          paidAt := if newStatus = .PAID then some now else none }

/-- `BillingService.getNextInvoiceNumber`: the most recently created invoice
of the business, its numeric suffix plus one; 1 (the source's "NF-0001")
when the business has none. -/
def getNextInvoiceNumber (st : DB) (businessId : Nat) : Nat :=
  match (st.invoices.filter fun i => i.businessId == businessId).getLast? with
  | none => 1
  | some lastInvoice => lastInvoice.number + 1

/-- `BillingService.createFromAppointment`. The service row of the
appointment is fetched through the prisma `include`; a missing row cannot
happen under the schema's foreign key, the `notFound` branch below only
totalises the model. -/
def createFromAppointment (st : DB) (businessId : Nat)
    (data : CreateInvoiceFromAppointmentInput) (now : Nat) : Except ApiError (Invoice × DB) :=
  match st.appointments.find? (fun a => a.id == data.appointmentId && a.businessId == businessId) with
  | none => .error (.notFound "Agendamento não encontrado")
  | some appointment =>
    if (invoiceForAppointment st data.appointmentId).isSome then
      .error (.badRequest "Já existe uma fatura para este agendamento")
    else
      match st.services.find? (fun s => s.id == appointment.serviceId) with
      | none => .error (.notFound "Serviço não encontrado")
      | some service =>
        let number := getNextInvoiceNumber st businessId
        let servicePrice := service.price
        let discount := data.discount.getD 0
        let total := servicePrice - discount
        let invoice : Invoice :=
          { id := st.nextId
            businessId := businessId
            customerId := appointment.customerId
            appointmentId := some appointment.id
            number := number
            status := if data.autoIssue then .PENDING else .DRAFT
            subtotal := servicePrice
            discount := discount
            total := total
            paidAmount := 0
            issuedAt := if data.autoIssue then some now else none
            dueDate := data.dueDate
            paidAt := none
            notes := data.notes
            items := [{ serviceId := some appointment.serviceId
                        description := service.name
                        quantity := 1
                        unitPrice := servicePrice
                        total := servicePrice }] }
        .ok (invoice,
          { st with invoices := st.invoices ++ [invoice], nextId := st.nextId + 1 })

/-- `BillingService.create` (manual invoice). -/
def create (st : DB) (businessId : Nat) (data : CreateInvoiceInput) (now : Nat) :
    Except ApiError (Invoice × DB) :=
  match findCustomer st businessId data.customerId with
  | none => .error (.notFound "Cliente não encontrado")
  | some _ =>
    if data.appointmentId.isSome ∧
        (invoiceForAppointment st (data.appointmentId.getD 0)).isSome then
      .error (.badRequest "Já existe uma fatura para este agendamento")
    else
      let number := getNextInvoiceNumber st businessId
      let itemsData := data.items.map fun item =>
        ({ serviceId := item.serviceId
           description := item.description
           quantity := item.quantity
           unitPrice := item.unitPrice
           total := item.quantity * item.unitPrice } : InvoiceItem)
      let subtotal := itemsData.foldl (fun sum item => sum + item.total) 0
      let discount := data.discount
      let total := subtotal - discount
      let invoice : Invoice :=
        { id := st.nextId
          businessId := businessId
          customerId := data.customerId
          appointmentId := data.appointmentId
          number := number
          status := if data.autoIssue then .PENDING else .DRAFT
          subtotal := subtotal
          discount := discount
          total := total
          paidAmount := 0
          issuedAt := if data.autoIssue then some now else none
          dueDate := data.dueDate
          paidAt := none
          notes := data.notes
          items := itemsData }
      .ok (invoice,
        { st with invoices := st.invoices ++ [invoice], nextId := st.nextId + 1 })

/-- `BillingService.addPayment`. On success the source re-reads the invoice
through `getById`; the pair returned here is that re-read row together with
the final state. -/
def addPayment (st : DB) (businessId invoiceId : Nat) (data : AddPaymentInput) (now : Nat) :
    Except ApiError (Invoice × DB) :=
  match findInvoice st businessId invoiceId with
  | none => .error (.notFound "Fatura não encontrada")
  | some invoice =>
    if invoice.status = .CANCELLED then
      .error (.badRequest "Não é possível adicionar pagamento a uma fatura cancelada")
    else if invoice.status = .DRAFT then
      .error (.badRequest "Emita a fatura antes de adicionar pagamentos")
    else if invoice.status = .PAID then
      .error (.badRequest "Fatura já está totalmente paga")
    else
      let remaining := invoice.total - invoice.paidAmount
      if remaining < data.amount then
        .error (.badRequest "Valor excede o saldo restante")
      else
        let payment : Payment :=
          { id := st.nextId
            invoiceId := invoiceId
            amount := data.amount
            method := data.method
            paidAt := data.paidAt.getD now
            notes := data.notes }
        let st1 : DB :=
          { st with payments := st.payments ++ [payment], nextId := st.nextId + 1 }
        let st2 := updateInvoiceStatus st1 invoiceId now
        match findInvoice st2 businessId invoiceId with
        | none => .error (.notFound "Fatura não encontrada")
        | some updated => .ok (updated, st2)

/-- `BillingService.removePayment`. No status guard at all: a payment of a
cancelled (or paid) invoice is deleted like any other, and the recomputation
then runs. -/
def removePayment (st : DB) (businessId invoiceId paymentId : Nat) (now : Nat) :
    Except ApiError (Invoice × DB) :=
  match findInvoice st businessId invoiceId with
  | none => .error (.notFound "Fatura não encontrada")
  | some _ =>
    match (paymentsOf st invoiceId).find? (fun p => p.id == paymentId) with
    | none => .error (.notFound "Pagamento não encontrado")
    | some _ =>
      let st1 : DB := { st with payments := st.payments.filter fun p => p.id != paymentId }
      let st2 := updateInvoiceStatus st1 invoiceId now
      match findInvoice st2 businessId invoiceId with
      | none => .error (.notFound "Fatura não encontrada")
      | some updated => .ok (updated, st2)

end BillingService

/-! ### Claim-side reference definitions

Two definitions below are written from the words of the specification (not
from the source), to be compared against the embedded code: the outcome
table of appointment creation and the claimed slot-duration resolution
order. -/

/-- The observable outcome of an appointment-creation call: the kind of the
raised error, or the end time of the created appointment. -/
inductive CreateOutcome
  | notFoundE
  | badRequestE
  | conflictE
  | createdE (endTime : Time)
deriving DecidableEq, Repr

/-- Outcome of a `create` result: error kind, or the persisted end time. -/
def outcomeOf : Except ApiError (Appointment × DB) → CreateOutcome
  | .error (.notFound _) => .notFoundE
  | .error (.badRequest _) => .badRequestE
  | .error (.conflict _) => .conflictE
  | .ok (a, _) => .createdE a.endTime

/-- The specification's description of appointment creation, written from its
words: NotFound when the active service or the customer is missing under the
business; BadRequest when the weekday is not an operating day or the range
leaves the open/close window; Conflict when a non-cancelled appointment of
the business on the date overlaps the half-open range; else a creation with
the computed end time. -/
def claimedCreateOutcome (st : DB) (businessId : Nat) (data : AppointmentsService.CreateAppointmentInput)
    (business : Business) : CreateOutcome :=
  match findActiveService st businessId data.serviceId with
  | none => .notFoundE
  | some service =>
    match findCustomer st businessId data.customerId with
    | none => .notFoundE
    | some _ =>
      let endTime := DateUtils.addMinutesToTime data.startTime service.duration
      if !(business.workingDays.contains (AppointmentsService.getDayOfWeek data.date)) then
        .badRequestE
      else if DateUtils.timeLtb data.startTime business.openTime ||
          DateUtils.timeLtb business.closeTime endTime then
        .badRequestE
      else if AppointmentsService.checkTimeConflict st businessId data.date data.startTime
          endTime none then
        .conflictE
      else
        .createdE endTime

/-- The specification's claimed duration-resolution order for available
slots, written from its words: the service's duration when `serviceId` is
given and resolves to an active service of the business, ELSE the explicit
duration when given, else the business default. -/
def claimedSlotDuration (st : DB) (businessId : Nat) (business : Business)
    (query : AppointmentsService.AvailableSlotsQuery) : Nat :=
  match query.serviceId.bind (fun sid => findActiveService st businessId sid) with
  | some service => service.duration
  | none => query.duration.getD business.slotDuration

/-! ### Concrete fixtures

Closed database states used by the witnesses, the counterexamples and the
code-bug evaluation. Epoch day 4 is 1970-01-05, a Monday; epoch day 3 a
Sunday. -/

/-- A business working weekdays 08:00-18:00, default slot 30 min. -/
def bizW : Business :=
  { id := 1
    workingDays := [.MONDAY, .TUESDAY, .WEDNESDAY, .THURSDAY, .FRIDAY]
    openTime := ⟨8, 0⟩
    closeTime := ⟨18, 0⟩
    slotDuration := 30 }

/-- An active 60-minute service of business 1. -/
def svcW : Service :=
  { id := 2, businessId := 1, name := "Lavagem completa", price := 80,
    duration := 60, isActive := true }

/-- A customer of business 1. -/
def custW : Customer :=
  { id := 3, businessId := 1, name := "Ana", phone := "11999990000" }

/-- Empty agenda: business, service and customer only. -/
def stW1 : DB :=
  { businesses := [bizW], services := [svcW], customers := [custW],
    appointments := [], invoices := [], payments := [], nextId := 10 }

/-- A valid creation request: Monday (epoch day 4) at 09:00. -/
def dataW1 : AppointmentsService.CreateAppointmentInput :=
  { customerId := 3, serviceId := 2, vehicleId := none, date := 4,
    startTime := ⟨9, 0⟩, notes := none }

/-- A PENDING appointment of business 1, Monday 09:00-10:00. -/
def apptP5 : Appointment :=
  { id := 10, businessId := 1, customerId := 3, serviceId := 2, vehicleId := none,
    date := 4, startTime := ⟨9, 0⟩, endTime := ⟨10, 0⟩, status := .PENDING,
    isFromPublic := false, notes := none }

/-- A CANCELLED appointment of business 1, Monday 11:00-12:00. -/
def apptC5 : Appointment :=
  { id := 11, businessId := 1, customerId := 3, serviceId := 2, vehicleId := none,
    date := 4, startTime := ⟨11, 0⟩, endTime := ⟨12, 0⟩, status := .CANCELLED,
    isFromPublic := false, notes := none }

/-- Agenda holding the two appointments above. -/
def stA5 : DB :=
  { businesses := [bizW], services := [svcW], customers := [custW],
    appointments := [apptP5, apptC5], invoices := [], payments := [], nextId := 20 }

/-- An update request moving an appointment to Sunday (epoch day 3) 22:00,
outside the business's operating days and hours. -/
def dataU10 : AppointmentsService.UpdateAppointmentInput :=
  { customerId := none, serviceId := none, vehicleId := none, date := some 3,
    startTime := some ⟨22, 0⟩, notes := none }

/-- A business working Mondays 08:00-10:00, default slot 30 min. -/
def bizC8 : Business :=
  { id := 1, workingDays := [.MONDAY], openTime := ⟨8, 0⟩, closeTime := ⟨10, 0⟩,
    slotDuration := 30 }

/-- State for the slot-duration claims: no service rows at all. -/
def stC8 : DB :=
  { businesses := [bizC8], services := [], customers := [], appointments := [],
    invoices := [], payments := [], nextId := 1 }

/-- Slot query for a Monday naming a service id that does not resolve AND an
explicit duration of 45 minutes. -/
def qC8 : AppointmentsService.AvailableSlotsQuery :=
  { date := 4, serviceId := some 99, duration := some 45 }

/-- Slot query for a Sunday, a non-operating day. -/
def qC8n : AppointmentsService.AvailableSlotsQuery :=
  { date := 3, serviceId := none, duration := some 45 }

/-- A CANCELLED invoice of business 1 with total 100 that still carries two
payments (50 and 30): reachable by paying 50 and 30 on a PENDING invoice and
then cancelling it from PARTIAL (cancel only refuses PAID and CANCELLED). -/
def invC2 : Invoice :=
  { id := 1, businessId := 1, customerId := 3, appointmentId := none, number := 1,
    status := .CANCELLED, subtotal := 100, discount := 0, total := 100,
    paidAmount := 80, issuedAt := some 0, dueDate := none, paidAt := none,
    notes := none, items := [] }

/-- The 50 payment on the cancelled invoice. -/
def payA : Payment :=
  { id := 31, invoiceId := 1, amount := 50, method := .PIX, paidAt := 5, notes := none }

/-- The 30 payment on the cancelled invoice. -/
def payB : Payment :=
  { id := 32, invoiceId := 1, amount := 30, method := .CASH, paidAt := 6, notes := none }

/-- State holding the cancelled, partially paid invoice. -/
def stC2 : DB :=
  { businesses := [], services := [], customers := [], appointments := [],
    invoices := [invC2], payments := [payA, payB], nextId := 33 }

/-- A freshly issued PENDING invoice with total 120 and no payments. -/
def invPend : Invoice :=
  { id := 1, businessId := 1, customerId := 3, appointmentId := none, number := 1,
    status := .PENDING, subtotal := 120, discount := 0, total := 120,
    paidAmount := 0, issuedAt := some 0, dueDate := none, paidAt := none,
    notes := none, items := [] }

/-- State holding the PENDING invoice with total 120. -/
def stPend : DB :=
  { businesses := [], services := [], customers := [], appointments := [],
    invoices := [invPend], payments := [], nextId := 31 }

/-- First payment of the claimed sequence: 50. -/
def pay50 : BillingService.AddPaymentInput :=
  { amount := 50, method := .PIX, paidAt := some 7, notes := none }

/-- Second payment of the claimed sequence: 70. -/
def pay70 : BillingService.AddPaymentInput :=
  { amount := 70, method := .CASH, paidAt := some 8, notes := none }

/-- The state after paying 50 on the PENDING 120 invoice. -/
def stStep1 : DB :=
  ((BillingService.addPayment stPend 1 1 pay50 0).toOption.map Prod.snd).getD stPend

/-- The state after then paying 70. -/
def stStep2 : DB :=
  ((BillingService.addPayment stStep1 1 1 pay70 0).toOption.map Prod.snd).getD stStep1

/-- A COMPLETED appointment of business 1 (id 5). -/
def apptDone : Appointment :=
  { id := 5, businessId := 1, customerId := 3, serviceId := 2, vehicleId := none,
    date := 4, startTime := ⟨9, 0⟩, endTime := ⟨10, 0⟩, status := .COMPLETED,
    isFromPublic := false, notes := none }

/-- An invoice already linked to appointment 5. -/
def invLinked : Invoice :=
  { id := 7, businessId := 1, customerId := 3, appointmentId := some 5, number := 1,
    status := .PENDING, subtotal := 80, discount := 0, total := 80,
    paidAmount := 0, issuedAt := some 0, dueDate := none, paidAt := none,
    notes := none, items := [] }

/-- State where appointment 5 already has its invoice. -/
def stC9 : DB :=
  { businesses := [bizW], services := [svcW], customers := [custW],
    appointments := [apptDone], invoices := [invLinked], payments := [], nextId := 40 }

/-- Same state with no invoices yet. -/
def stC9b : DB :=
  { stC9 with invoices := [] }

/-- Invoice-from-appointment request for appointment 5. -/
def inC9 : BillingService.CreateInvoiceFromAppointmentInput :=
  { appointmentId := 5, discount := none, dueDate := none, notes := none,
    autoIssue := true }

/-! ## Lemmas -/

theorem timeToMinutes_minutesToTime (m : Nat) :
    DateUtils.timeToMinutes (DateUtils.minutesToTime m) = m := by
  simp [DateUtils.timeToMinutes, DateUtils.minutesToTime]
  omega

theorem slotsFrom_pos {cur close d : Nat} (hd : 0 < d) (hc : cur < close) :
    DateUtils.slotsFrom cur close d = cur :: DateUtils.slotsFrom (cur + d) close d := by
  rw [DateUtils.slotsFrom]
  simp [hd, hc]

theorem slotsFrom_nil {cur close d : Nat} (h : ¬(0 < d ∧ cur < close)) :
    DateUtils.slotsFrom cur close d = [] := by
  rw [DateUtils.slotsFrom]
  simp only [dif_neg h]

theorem slotsFrom_eq (cur close d : Nat) :
    DateUtils.slotsFrom cur close d =
      if 0 < d ∧ cur < close then cur :: DateUtils.slotsFrom (cur + d) close d else [] := by
  by_cases h : 0 < d ∧ cur < close
  · rw [if_pos h]
    exact slotsFrom_pos h.1 h.2
  · rw [if_neg h]
    exact slotsFrom_nil h

theorem slotsFrom_mem_lt {cur close d : Nat} :
    ∀ x ∈ DateUtils.slotsFrom cur close d, x < close := by
  induction cur, close, d using DateUtils.slotsFrom.induct with
  | case1 cur close d h ih =>
    rw [slotsFrom_pos h.1 h.2]
    intro x hx
    rcases List.mem_cons.mp hx with rfl | hx
    · exact h.2
    · exact ih x hx
  | case2 cur close d h =>
    rw [slotsFrom_nil h]
    intro x hx
    cases hx

theorem slotsFrom_chain (cur close d : Nat) :
    List.Chain' (fun a b => b = a + d) (DateUtils.slotsFrom cur close d) := by
  induction cur, close, d using DateUtils.slotsFrom.induct with
  | case1 cur close d h ih =>
    rw [slotsFrom_pos h.1 h.2]
    refine List.chain'_cons'.mpr ⟨?_, ih⟩
    intro y hy
    by_cases h2 : 0 < d ∧ cur + d < close
    · rw [slotsFrom_pos h2.1 h2.2] at hy
      simp at hy
      omega
    · rw [slotsFrom_nil h2] at hy
      simp at hy
  | case2 cur close d h =>
    rw [slotsFrom_nil h]
    exact List.chain'_nil

theorem slotsFrom_stop (cur close d : Nat) :
    0 < d → close ≤ cur + (DateUtils.slotsFrom cur close d).length * d := by
  induction cur, close, d using DateUtils.slotsFrom.induct with
  | case1 cur close d h ih =>
    intro hd
    rw [slotsFrom_pos h.1 h.2]
    have hrec := ih hd
    simp only [List.length_cons, Nat.succ_mul]
    generalize (DateUtils.slotsFrom (cur + d) close d).length * d = t at hrec ⊢
    omega
  | case2 cur close d h =>
    intro hd
    rw [slotsFrom_nil h]
    simp only [List.length_nil, Nat.zero_mul, Nat.add_zero]
    push_neg at h
    exact Nat.le_of_not_lt fun hc => absurd (h hd) (Nat.not_le_of_lt hc)

theorem slotsFrom_head {cur close d : Nat} (hd : 0 < d) (hc : cur < close) :
    (DateUtils.slotsFrom cur close d).head? = some cur := by
  rw [slotsFrom_pos hd hc]
  rfl

theorem generateTimeSlots_minutes (o c : Time) (d : Nat) :
    (DateUtils.generateTimeSlots o c d).map DateUtils.timeToMinutes =
      DateUtils.slotsFrom (DateUtils.timeToMinutes o) (DateUtils.timeToMinutes c) d := by
  simp [DateUtils.generateTimeSlots, List.map_map, Function.comp_def,
    timeToMinutes_minutesToTime]

/-- Strengthening the predicate of a successful `find?` by a test the found
element passes does not change the result when the element is the first
match. -/
theorem find?_and_right {α : Type} {l : List α} {p q : α → Bool} {a : α}
    (h : l.find? p = some a) (ha : q a = true) :
    l.find? (fun x => p x && q x) = some a := by
  induction l with
  | nil => simp at h
  | cons x xs ih =>
    by_cases hx : p x = true
    · rw [List.find?_cons_of_pos _ hx] at h
      injection h with h
      subst h
      exact List.find?_cons_of_pos _ (by simp [hx, ha])
    · have hx' : p x = false := by simpa using hx
      rw [List.find?_cons_of_neg _ (by simp [hx'])] at h
      rw [List.find?_cons_of_neg _ (by simp [hx'])]
      exact ih h

/-- Replacing every `p`-match of a list by `b` (itself a `p`-match) makes
`find? p` return `b`, provided `find? p` succeeded before. -/
theorem find?_replace {α : Type} {l : List α} {p : α → Bool} {a : α} (b : α)
    (h : l.find? p = some a) (hb : p b = true) :
    (l.map fun x => if p x then b else x).find? p = some b := by
  induction l with
  | nil => simp at h
  | cons x xs ih =>
    by_cases hx : p x = true
    · simp only [List.map_cons, if_pos hx]
      exact List.find?_cons_of_pos _ hb
    · have hx' : p x = false := by simpa using hx
      simp only [List.map_cons, if_neg hx]
      rw [List.find?_cons_of_neg _ (by simp [hx'])] at h
      rw [List.find?_cons_of_neg _ (by simp [hx'])]
      exact ih h

/-- The status recomputation touches only the invoices table. -/
theorem updateInvoiceStatus_payments (st : DB) (invoiceId now : Nat) :
    (BillingService.updateInvoiceStatus st invoiceId now).payments = st.payments := by
  unfold BillingService.updateInvoiceStatus
  cases h : st.invoices.find? (fun i => i.id == invoiceId) with
  | none => rfl
  | some inv => rfl

/-- The paid total only depends on the payments table. -/
theorem paymentsSum_of_payments_eq {st1 st2 : DB} (h : st1.payments = st2.payments)
    (invoiceId : Nat) :
    BillingService.paymentsSum st1 invoiceId = BillingService.paymentsSum st2 invoiceId := by
  unfold BillingService.paymentsSum BillingService.paymentsOf
  rw [h]

/-- What the recomputation writes: the invoice row keeps its identity and
totals, while paidAmount becomes the recorded payments' sum, the status the
derived one, and paidAt is set exactly on PAID. -/
theorem updateInvoiceStatus_find (st : DB) (invoiceId now : Nat) (inv : Invoice)
    (h : st.invoices.find? (fun i => i.id == invoiceId) = some inv) :
    (BillingService.updateInvoiceStatus st invoiceId now).invoices.find?
        (fun i => i.id == invoiceId) =
      some { inv with
        paidAmount := BillingService.paymentsSum st invoiceId
        status := BillingService.deriveStatus inv.status inv.total
          (BillingService.paymentsSum st invoiceId) inv.dueDate now
        paidAt := if BillingService.deriveStatus inv.status inv.total
              (BillingService.paymentsSum st invoiceId) inv.dueDate now = .PAID
            then some now else none } := by
  have hid : inv.id = invoiceId := by simpa using List.find?_some h
  subst hid
  unfold BillingService.updateInvoiceStatus
  rw [h]
  unfold replaceInvoice
  exact find?_replace _ h (by simp)

/-- A business-scoped invoice lookup succeeds on the first id-match when
that row belongs to the business. -/
theorem findInvoice_of_find? {st : DB} {invoiceId businessId : Nat} {inv : Invoice}
    (h : st.invoices.find? (fun i => i.id == invoiceId) = some inv)
    (hb : inv.businessId = businessId) :
    BillingService.findInvoice st businessId invoiceId = some inv := by
  unfold BillingService.findInvoice
  exact find?_and_right h (by simp [hb])

/-! ## Claims -/

/-- C6: the interval-overlap test returns true iff `startA < endB` and
`startB < endA` on minute values; it is symmetric; and two back-to-back
intervals such as 09:00-10:00 and 10:00-11:00 do not overlap. -/
theorem claims_C6_overlap :
    (∀ a b c d : Time, DateUtils.doTimesOverlap a b c d = true ↔
        (DateUtils.timeToMinutes a < DateUtils.timeToMinutes d ∧
          DateUtils.timeToMinutes c < DateUtils.timeToMinutes b)) ∧
    (∀ a b c d : Time,
        DateUtils.timeRangesOverlap a b c d = DateUtils.timeRangesOverlap c d a b) ∧
    DateUtils.timeRangesOverlap ⟨9, 0⟩ ⟨10, 0⟩ ⟨10, 0⟩ ⟨11, 0⟩ = false := by
  refine ⟨?_, ?_, by decide⟩
  · intro a b c d
    simp [DateUtils.doTimesOverlap]
  · intro a b c d
    simp [DateUtils.timeRangesOverlap, DateUtils.doTimesOverlap, Bool.and_comm]

/-- C7: for `open < close` (in minutes) and positive duration, the slot grid
starts at `open`, consecutive slots are exactly `duration` minutes apart,
every slot is strictly before `close`, the grid stops once a slot would
reach or pass `close`, and the minute values are strictly increasing. -/
theorem claims_C7_generateTimeSlots (openT closeT : Time) (d : Nat)
    (hoc : DateUtils.timeToMinutes openT < DateUtils.timeToMinutes closeT)
    (hd : 0 < d) :
    ((DateUtils.generateTimeSlots openT closeT d).map DateUtils.timeToMinutes).head? =
        some (DateUtils.timeToMinutes openT) ∧
    List.Chain' (fun a b => b = a + d)
        ((DateUtils.generateTimeSlots openT closeT d).map DateUtils.timeToMinutes) ∧
    (∀ x ∈ (DateUtils.generateTimeSlots openT closeT d).map DateUtils.timeToMinutes,
        x < DateUtils.timeToMinutes closeT) ∧
    DateUtils.timeToMinutes closeT ≤ DateUtils.timeToMinutes openT +
        ((DateUtils.generateTimeSlots openT closeT d).map DateUtils.timeToMinutes).length * d ∧
    List.Pairwise (· < ·)
        ((DateUtils.generateTimeSlots openT closeT d).map DateUtils.timeToMinutes) := by
  rw [generateTimeSlots_minutes]
  refine ⟨slotsFrom_head hd hoc, slotsFrom_chain _ _ _, slotsFrom_mem_lt,
    slotsFrom_stop _ _ _ hd, ?_⟩
  have hch : List.Chain' (· < ·)
      (DateUtils.slotsFrom (DateUtils.timeToMinutes openT) (DateUtils.timeToMinutes closeT) d) :=
    (slotsFrom_chain _ _ _).imp fun a b hab => by omega
  exact List.chain'_iff_pairwise.mp hch

/-- Witness for C7: the window 09:00-10:00 with 30-minute slots. -/
theorem claims_C7_witness :
    (0 < 30 ∧ DateUtils.timeToMinutes ⟨9, 0⟩ < DateUtils.timeToMinutes ⟨10, 0⟩) ∧
    ((DateUtils.generateTimeSlots ⟨9, 0⟩ ⟨10, 0⟩ 30).map DateUtils.timeToMinutes).head? =
      some 540 :=
  ⟨by decide, (claims_C7_generateTimeSlots ⟨9, 0⟩ ⟨10, 0⟩ 30 (by decide) (by decide)).1⟩

/-- C1: appointment creation (for an existing business row) realises exactly
the outcome table of the spec — NotFound for a missing active service or
customer, BadRequest for a non-operating weekday or a range outside the
open/close window, Conflict for an overlap with a non-cancelled appointment
of the business on that date — and on success persists a new PENDING
appointment carrying the computed end time. -/
theorem claims_C1_create (st : DB) (businessId : Nat)
    (data : AppointmentsService.CreateAppointmentInput) (isFromPublic : Bool)
    (business : Business) (hb : findBusiness st businessId = some business) :
    outcomeOf (AppointmentsService.create st businessId data isFromPublic) =
      claimedCreateOutcome st businessId data business ∧
    (∀ a st', AppointmentsService.create st businessId data isFromPublic = .ok (a, st') →
      a.status = .PENDING ∧
      st'.appointments = st.appointments ++ [a] ∧
      a.startTime = data.startTime ∧ a.date = data.date ∧
      ∃ s, findActiveService st businessId data.serviceId = some s ∧
        a.endTime = DateUtils.addMinutesToTime data.startTime s.duration) := by
  unfold AppointmentsService.create claimedCreateOutcome
  cases hsvc : findActiveService st businessId data.serviceId with
  | none => simp [outcomeOf]
  | some service =>
    cases hcust : findCustomer st businessId data.customerId with
    | none => simp [outcomeOf]
    | some customer =>
      rw [hb]
      by_cases hday : business.workingDays.contains
          (AppointmentsService.getDayOfWeek data.date) = true
      · by_cases hhrs : (DateUtils.timeLtb data.startTime business.openTime ||
            DateUtils.timeLtb business.closeTime
              (DateUtils.addMinutesToTime data.startTime service.duration)) = true
        · simp [hday, hhrs, outcomeOf]
        · by_cases hcf : AppointmentsService.checkTimeConflict st businessId data.date
              data.startTime (DateUtils.addMinutesToTime data.startTime service.duration)
              none = true
          · simp [hday, hhrs, hcf, outcomeOf]
          · simp [hday, hhrs, hcf, outcomeOf]
      · simp [hday, outcomeOf]

/-- Witness for C1: a valid Monday 09:00 request against the empty agenda. -/
theorem claims_C1_witness :
    findBusiness stW1 1 = some bizW ∧
    outcomeOf (AppointmentsService.create stW1 1 dataW1 false) =
      claimedCreateOutcome stW1 1 dataW1 bizW :=
  ⟨rfl, (claims_C1_create stW1 1 dataW1 false bizW rfl).1⟩

/-- C5 fails on the code: `updateStatus` accepts PENDING directly to
COMPLETED (no transition table is checked), and a transition out of
CANCELLED is refused with a BadRequest (HTTP 400) error, not a conflict
error. -/
theorem claims_C5_counterexample :
    (AppointmentsService.updateStatus stA5 10 1 .COMPLETED).isOk = true ∧
    AppointmentsService.updateStatus stA5 11 1 .PENDING =
      .error (.badRequest "Não é possível alterar agendamento cancelado") :=
  ⟨rfl, rfl⟩

/-- C5 as the code has it: `updateStatus` refuses, with BadRequest, any call
on a CANCELLED appointment and any target other than COMPLETED on a
COMPLETED appointment; every other transition is written through (including
PENDING to COMPLETED and transitions out of NO_SHOW); and `update` refuses
any field edit on a COMPLETED or CANCELLED appointment with BadRequest. -/
theorem claims_C5_amended (st : DB) (appointmentId businessId : Nat)
    (newStatus : AppointmentStatus) (existing : Appointment)
    (hget : AppointmentsService.getById st appointmentId businessId = .ok existing) :
    (existing.status = .CANCELLED →
      AppointmentsService.updateStatus st appointmentId businessId newStatus =
        .error (.badRequest "Não é possível alterar agendamento cancelado")) ∧
    (existing.status = .COMPLETED → newStatus ≠ .COMPLETED →
      AppointmentsService.updateStatus st appointmentId businessId newStatus =
        .error (.badRequest "Não é possível reverter agendamento concluído")) ∧
    (existing.status ≠ .CANCELLED → (existing.status = .COMPLETED → newStatus = .COMPLETED) →
      ∃ a st', AppointmentsService.updateStatus st appointmentId businessId newStatus =
        .ok (a, st') ∧ a.status = newStatus) ∧
    (∀ data, existing.status = .COMPLETED ∨ existing.status = .CANCELLED →
      AppointmentsService.update st appointmentId businessId data =
        .error (.badRequest "Não é possível alterar agendamento concluído ou cancelado")) := by
  refine ⟨?_, ?_, ?_, ?_⟩
  · intro h
    unfold AppointmentsService.updateStatus
    rw [hget]
    simp [h]
  · intro h hne
    unfold AppointmentsService.updateStatus
    rw [hget]
    simp [h, hne]
  · intro h1 h2
    unfold AppointmentsService.updateStatus
    rw [hget]
    by_cases hc : existing.status = .COMPLETED
    · simp [h1, hc, h2 hc]
    · simp [h1, hc]
  · intro data h
    unfold AppointmentsService.update
    rw [hget]
    simp [h]

/-- Witness for the amended C5: PENDING to CONFIRMED goes through. -/
theorem claims_C5_witness :
    AppointmentsService.getById stA5 10 1 = .ok apptP5 ∧
    (∃ a st', AppointmentsService.updateStatus stA5 10 1 .CONFIRMED = .ok (a, st') ∧
      a.status = .CONFIRMED) :=
  ⟨rfl, (claims_C5_amended stA5 10 1 .CONFIRMED apptP5 rfl).2.2.1 (by decide) (by decide)⟩

/-- C10: updating a non-terminal appointment never re-validates operating
days or open/close hours: whenever the status guard, the service resolution,
the overlap check (which excludes the appointment's own id) and the optional
customer check pass, the update succeeds — no hypothesis about the
business's working days or hours appears. -/
theorem claims_C10_update (st : DB) (appointmentId businessId : Nat)
    (data : AppointmentsService.UpdateAppointmentInput) (existing : Appointment) (et : Time)
    (hget : AppointmentsService.getById st appointmentId businessId = .ok existing)
    (hstat : existing.status = .PENDING ∨ existing.status = .CONFIRMED)
    (het : AppointmentsService.resolveEndTime st businessId existing data = .ok et)
    (hconf : AppointmentsService.checkTimeConflict st businessId
      (data.date.getD existing.date) (data.startTime.getD existing.startTime) et
      (some appointmentId) = false)
    (hcust : AppointmentsService.validateCustomerIfGiven st businessId data.customerId =
      .ok ()) :
    ∃ a st', AppointmentsService.update st appointmentId businessId data = .ok (a, st') ∧
      a.date = data.date.getD existing.date ∧
      a.startTime = data.startTime.getD existing.startTime ∧
      a.endTime = et ∧ a.status = existing.status := by
  have hterm : ¬(existing.status = .COMPLETED ∨ existing.status = .CANCELLED) := by
    rcases hstat with h | h <;> simp [h]
  unfold AppointmentsService.update
  rw [hget]
  simp only [if_neg hterm, het, hconf, Bool.and_false, Bool.false_eq_true, if_false, hcust]
  exact ⟨_, _, rfl, rfl, rfl, rfl, rfl⟩

/-- Witness for C10: the PENDING Monday 09:00 appointment is moved to Sunday
22:00-23:00 — a non-operating day, past closing time — and the update
succeeds. -/
theorem claims_C10_witness :
    (AppointmentsService.getById stA5 10 1 = .ok apptP5 ∧
      AppointmentsService.resolveEndTime stA5 1 apptP5 dataU10 = .ok ⟨23, 0⟩ ∧
      AppointmentsService.checkTimeConflict stA5 1 3 ⟨22, 0⟩ ⟨23, 0⟩ (some 10) = false ∧
      bizW.workingDays.contains (AppointmentsService.getDayOfWeek 3) = false ∧
      DateUtils.timeLtb bizW.closeTime ⟨23, 0⟩ = true) ∧
    (∃ a st', AppointmentsService.update stA5 10 1 dataU10 = .ok (a, st') ∧
      a.date = 3 ∧ a.startTime = ⟨22, 0⟩ ∧ a.endTime = ⟨23, 0⟩ ∧
      a.status = apptP5.status) :=
  ⟨⟨rfl, rfl, rfl, rfl, rfl⟩,
    claims_C10_update stA5 10 1 dataU10 apptP5 ⟨23, 0⟩ rfl (Or.inl rfl) rfl rfl rfl⟩

/-- C8 fails on the code: with a serviceId that does not resolve AND an
explicit duration of 45, the code keeps the business default of 30 (the
explicit duration lives in an `else if` reached only when no serviceId was
given), while the claimed resolution order yields 45; observably, the
08:00-10:00 grid has 4 slots (spacing 30), not 3 (spacing 45). -/
theorem claims_C8_counterexample :
    AppointmentsService.resolveSlotDuration stC8 1 bizC8 qC8 = 30 ∧
    claimedSlotDuration stC8 1 bizC8 qC8 = 45 ∧
    (AppointmentsService.getAvailableSlots stC8 1 qC8 0 ⟨0, 0⟩).map List.length = .ok 4 :=
  ⟨rfl, rfl, by
    simp [AppointmentsService.getAvailableSlots, stC8, bizC8, qC8,
      AppointmentsService.resolveSlotDuration, findBusiness, findActiveService,
      AppointmentsService.getDayOfWeek, DateUtils.generateTimeSlots, slotsFrom_eq,
      DateUtils.timeToMinutes, DateUtils.minutesToTime, Except.map]
    rfl⟩

/-- C8 as the code has it: the duration is the service's when `serviceId`
resolves to an active service of the business; the business default when
`serviceId` is given but does not resolve (the explicit duration is then
ignored); the explicit duration only when no `serviceId` is given; and the
answer is the empty sequence whenever the weekday of the date is not an
operating day. -/
theorem claims_C8_amended (st : DB) (businessId : Nat)
    (query : AppointmentsService.AvailableSlotsQuery) (today : Nat) (nowTime : Time)
    (business : Business) (hb : findBusiness st businessId = some business) :
    (business.workingDays.contains (AppointmentsService.getDayOfWeek query.date) = false →
      AppointmentsService.getAvailableSlots st businessId query today nowTime = .ok []) ∧
    (∀ sid s, query.serviceId = some sid → findActiveService st businessId sid = some s →
      AppointmentsService.resolveSlotDuration st businessId business query = s.duration) ∧
    (∀ sid, query.serviceId = some sid → findActiveService st businessId sid = none →
      AppointmentsService.resolveSlotDuration st businessId business query =
        business.slotDuration) ∧
    (query.serviceId = none →
      AppointmentsService.resolveSlotDuration st businessId business query =
        query.duration.getD business.slotDuration) ∧
    (business.workingDays.contains (AppointmentsService.getDayOfWeek query.date) = true →
      ∃ slots, AppointmentsService.getAvailableSlots st businessId query today nowTime =
        .ok slots ∧
        slots.map AppointmentsService.TimeSlot.time =
          DateUtils.generateTimeSlots business.openTime business.closeTime
            (AppointmentsService.resolveSlotDuration st businessId business query)) := by
  refine ⟨?_, ?_, ?_, ?_, ?_⟩
  · intro hday
    unfold AppointmentsService.getAvailableSlots
    rw [hb]
    simp [hday]
  · intro sid s hsid hs
    unfold AppointmentsService.resolveSlotDuration
    rw [hsid]
    simp [hs]
  · intro sid hsid hs
    unfold AppointmentsService.resolveSlotDuration
    rw [hsid]
    simp [hs]
  · intro hnone
    unfold AppointmentsService.resolveSlotDuration
    rw [hnone]
    cases query.duration <;> rfl
  · intro hday
    unfold AppointmentsService.getAvailableSlots
    rw [hb]
    simp only [hday, Bool.not_true, Bool.false_eq_true, if_false]
    refine ⟨_, rfl, ?_⟩
    simp [List.map_map, Function.comp_def]

/-- Witness for the amended C8: Sunday yields the empty sequence, and the
unresolved serviceId keeps the business default. -/
theorem claims_C8_witness :
    (findBusiness stC8 1 = some bizC8 ∧
      bizC8.workingDays.contains (AppointmentsService.getDayOfWeek qC8n.date) = false) ∧
    AppointmentsService.getAvailableSlots stC8 1 qC8n 0 ⟨0, 0⟩ = .ok [] ∧
    AppointmentsService.resolveSlotDuration stC8 1 bizC8 qC8 = bizC8.slotDuration :=
  ⟨⟨rfl, rfl⟩,
    (claims_C8_amended stC8 1 qC8n 0 ⟨0, 0⟩ bizC8 rfl).1 rfl,
    (claims_C8_amended stC8 1 qC8 0 ⟨0, 0⟩ bizC8 rfl).2.2.1 99 rfl rfl⟩

/-- C9 fails on the code: the duplicate-invoice-per-appointment check raises
BadRequest (HTTP 400), not a Conflict (HTTP 409) error. -/
theorem claims_C9_counterexample :
    BillingService.createFromAppointment stC9 1 inC9 0 =
      .error (.badRequest "Já existe uma fatura para este agendamento") :=
  rfl

/-- C9 as the code has it: with the appointment resolved under the business,
an already-linked invoice makes `createFromAppointment` (and `create` when
given the appointmentId) fail with BadRequest — not Conflict — and with no
linked invoice the invoice is created and linked 1:1. -/
theorem claims_C9_amended (st : DB) (businessId : Nat)
    (data : BillingService.CreateInvoiceFromAppointmentInput) (now : Nat)
    (appt : Appointment)
    (happt : st.appointments.find?
      (fun a => a.id == data.appointmentId && a.businessId == businessId) = some appt) :
    ((BillingService.invoiceForAppointment st data.appointmentId).isSome = true →
      BillingService.createFromAppointment st businessId data now =
        .error (.badRequest "Já existe uma fatura para este agendamento")) ∧
    ((BillingService.invoiceForAppointment st data.appointmentId).isSome = false →
      ∀ s, st.services.find? (fun sv => sv.id == appt.serviceId) = some s →
      ∃ inv st', BillingService.createFromAppointment st businessId data now =
        .ok (inv, st') ∧
        inv.appointmentId = some data.appointmentId ∧
        st'.invoices = st.invoices ++ [inv]) ∧
    (∀ cdata : BillingService.CreateInvoiceInput,
      cdata.appointmentId = some data.appointmentId →
      (findCustomer st businessId cdata.customerId).isSome = true →
      (BillingService.invoiceForAppointment st data.appointmentId).isSome = true →
      BillingService.create st businessId cdata now =
        .error (.badRequest "Já existe uma fatura para este agendamento")) := by
  have hid : appt.id = data.appointmentId ∧ appt.businessId = businessId := by
    have := List.find?_some happt
    simpa using this
  refine ⟨?_, ?_, ?_⟩
  · intro hdup
    unfold BillingService.createFromAppointment
    rw [happt]
    simp [hdup]
  · intro hdup s hs
    unfold BillingService.createFromAppointment
    rw [happt]
    simp only [hdup, Bool.false_eq_true, if_false, hs]
    exact ⟨_, _, rfl, by simp [hid.1], rfl⟩
  · intro cdata hcid hcust hdup
    obtain ⟨c, hc⟩ := Option.isSome_iff_exists.mp hcust
    unfold BillingService.create
    rw [hc]
    simp [hcid, hdup]

/-- Witness for the amended C9: with no invoice linked yet, the invoice is
created and linked to appointment 5. -/
theorem claims_C9_witness :
    (stC9b.appointments.find? (fun a => a.id == inC9.appointmentId && a.businessId == 1) =
        some apptDone ∧
      (BillingService.invoiceForAppointment stC9b inC9.appointmentId).isSome = false ∧
      stC9b.services.find? (fun sv => sv.id == apptDone.serviceId) = some svcW) ∧
    (∃ inv st', BillingService.createFromAppointment stC9b 1 inC9 0 = .ok (inv, st') ∧
      inv.appointmentId = some inC9.appointmentId ∧
      st'.invoices = stC9b.invoices ++ [inv]) :=
  ⟨⟨rfl, rfl, rfl⟩,
    (claims_C9_amended stC9b 1 inC9 0 apptDone rfl).2.1 rfl svcW rfl⟩

/-- C3: after every successful addPayment and removePayment, the stored
paidAmount equals the sum of the amounts of the remaining payments, and the
stored status is exactly the value `deriveStatus` computes from that sum,
the total, the due date and the prior status (PAID when sum >= total,
PARTIAL when 0 < sum < total, OVERDUE when sum = 0 with a past due date and
prior status PENDING). -/
theorem claims_C3_reconciliation (st : DB) (businessId invoiceId now : Nat) (inv : Invoice)
    (hinv : st.invoices.find? (fun i => i.id == invoiceId) = some inv)
    (hbid : inv.businessId = businessId) :
    (∀ data r st', BillingService.addPayment st businessId invoiceId data now = .ok (r, st') →
      st'.invoices.find? (fun i => i.id == invoiceId) = some r ∧
      r.paidAmount = BillingService.paymentsSum st' invoiceId ∧
      r.status = BillingService.deriveStatus inv.status inv.total
        (BillingService.paymentsSum st' invoiceId) inv.dueDate now) ∧
    (∀ paymentId r st',
      BillingService.removePayment st businessId invoiceId paymentId now = .ok (r, st') →
      st'.invoices.find? (fun i => i.id == invoiceId) = some r ∧
      r.paidAmount = BillingService.paymentsSum st' invoiceId ∧
      r.status = BillingService.deriveStatus inv.status inv.total
        (BillingService.paymentsSum st' invoiceId) inv.dueDate now) := by
  have hscoped : BillingService.findInvoice st businessId invoiceId = some inv :=
    findInvoice_of_find? hinv hbid
  constructor
  · intro data r st' hok
    unfold BillingService.addPayment at hok
    rw [hscoped] at hok
    dsimp only at hok
    by_cases c1 : inv.status = .CANCELLED
    · rw [if_pos c1] at hok
      simp at hok
    rw [if_neg c1] at hok
    by_cases c2 : inv.status = .DRAFT
    · rw [if_pos c2] at hok
      simp at hok
    rw [if_neg c2] at hok
    by_cases c3 : inv.status = .PAID
    · rw [if_pos c3] at hok
      simp at hok
    rw [if_neg c3] at hok
    by_cases c4 : inv.total - inv.paidAmount < data.amount
    · rw [if_pos c4] at hok
      simp at hok
    rw [if_neg c4] at hok
    have h1 : ({ st with
                 payments := st.payments ++
                   [{ id := st.nextId, invoiceId := invoiceId, amount := data.amount,
                      method := data.method, paidAt := data.paidAt.getD now,
                      notes := data.notes }],
                 nextId := st.nextId + 1 } : DB).invoices.find?
        (fun i => i.id == invoiceId) = some inv := hinv
    have h2 := updateInvoiceStatus_find _ invoiceId now inv h1
    have h3 := findInvoice_of_find? h2 hbid
    rw [h3] at hok
    dsimp only at hok
    injection hok with hpair
    injection hpair with hr hst
    subst hr
    subst hst
    refine ⟨h2, ?_, ?_⟩
    · rw [paymentsSum_of_payments_eq (updateInvoiceStatus_payments _ invoiceId now) invoiceId]
    · rw [paymentsSum_of_payments_eq (updateInvoiceStatus_payments _ invoiceId now) invoiceId]
  · intro paymentId r st' hok
    unfold BillingService.removePayment at hok
    rw [hscoped] at hok
    dsimp only at hok
    cases hpm : (BillingService.paymentsOf st invoiceId).find? (fun p => p.id == paymentId) with
    | none =>
      rw [hpm] at hok
      simp at hok
    | some pm =>
      rw [hpm] at hok
      dsimp only at hok
      have h1 : ({ st with payments := st.payments.filter fun p => p.id != paymentId } :
          DB).invoices.find? (fun i => i.id == invoiceId) = some inv := hinv
      have h2 := updateInvoiceStatus_find _ invoiceId now inv h1
      have h3 := findInvoice_of_find? h2 hbid
      rw [h3] at hok
      dsimp only at hok
      injection hok with hpair
      injection hpair with hr hst
      subst hr
      subst hst
      refine ⟨h2, ?_, ?_⟩
      · rw [paymentsSum_of_payments_eq (updateInvoiceStatus_payments _ invoiceId now) invoiceId]
      · rw [paymentsSum_of_payments_eq (updateInvoiceStatus_payments _ invoiceId now) invoiceId]

/-- Witness for C3: the PENDING total-120 invoice, paying 50. -/
theorem claims_C3_witness :
    (stPend.invoices.find? (fun i => i.id == 1) = some invPend ∧ invPend.businessId = 1) ∧
    (∀ r st', BillingService.addPayment stPend 1 1 pay50 0 = .ok (r, st') →
      st'.invoices.find? (fun i => i.id == 1) = some r ∧
      r.paidAmount = BillingService.paymentsSum st' 1 ∧
      r.status = BillingService.deriveStatus invPend.status invPend.total
        (BillingService.paymentsSum st' 1) invPend.dueDate 0) :=
  ⟨⟨rfl, rfl⟩, (claims_C3_reconciliation stPend 1 1 0 invPend rfl rfl).1 pay50⟩

/-- C4: addPayment fails with BadRequest on a CANCELLED, DRAFT or PAID
invoice and on any amount strictly above the remaining balance (paying the
exact remainder is permitted); otherwise it appends the payment row; and the
claimed 120/50/70 sequence behaves exactly as stated, any further positive
payment failing with BadRequest. -/
theorem claims_C4_addPayment (st : DB) (businessId invoiceId now : Nat) (inv : Invoice)
    (hinv : st.invoices.find? (fun i => i.id == invoiceId) = some inv)
    (hbid : inv.businessId = businessId) :
    (inv.status = .CANCELLED ∨ inv.status = .DRAFT ∨ inv.status = .PAID →
      ∀ data, ∃ m, BillingService.addPayment st businessId invoiceId data now =
        .error (.badRequest m)) ∧
    (∀ data : BillingService.AddPaymentInput,
      inv.status ≠ .CANCELLED → inv.status ≠ .DRAFT → inv.status ≠ .PAID →
      inv.total - inv.paidAmount < data.amount →
      BillingService.addPayment st businessId invoiceId data now =
        .error (.badRequest "Valor excede o saldo restante")) ∧
    (∀ data : BillingService.AddPaymentInput,
      inv.status ≠ .CANCELLED → inv.status ≠ .DRAFT → inv.status ≠ .PAID →
      data.amount ≤ inv.total - inv.paidAmount →
      ∃ r st', BillingService.addPayment st businessId invoiceId data now = .ok (r, st') ∧
        st'.payments = st.payments ++
          [{ id := st.nextId, invoiceId := invoiceId, amount := data.amount,
             method := data.method, paidAt := data.paidAt.getD now,
             notes := data.notes }]) ∧
    (BillingService.addPayment stPend 1 1 pay50 0).map
        (fun r => (r.1.status, r.1.paidAmount)) = .ok (.PARTIAL, 50) ∧
    (BillingService.addPayment stStep1 1 1 pay70 0).map
        (fun r => (r.1.status, r.1.paidAmount)) = .ok (.PAID, 120) ∧
    (∀ amount : ℚ, 0 < amount →
      BillingService.addPayment stStep2 1 1 ⟨amount, .CASH, none, none⟩ 0 =
        .error (.badRequest "Fatura já está totalmente paga")) := by
  have hscoped : BillingService.findInvoice st businessId invoiceId = some inv :=
    findInvoice_of_find? hinv hbid
  refine ⟨?_, ?_, ?_, ?_, ?_, ?_⟩
  · intro h data
    unfold BillingService.addPayment
    rw [hscoped]
    dsimp only
    rcases h with h | h | h
    · rw [if_pos h]
      exact ⟨_, rfl⟩
    · rw [if_neg (by simp [h]), if_pos h]
      exact ⟨_, rfl⟩
    · rw [if_neg (by simp [h]), if_neg (by simp [h]), if_pos h]
      exact ⟨_, rfl⟩
  · intro data h1 h2 h3 h4
    unfold BillingService.addPayment
    rw [hscoped]
    dsimp only
    rw [if_neg h1, if_neg h2, if_neg h3, if_pos h4]
  · intro data h1 h2 h3 h4
    unfold BillingService.addPayment
    rw [hscoped]
    dsimp only
    rw [if_neg h1, if_neg h2, if_neg h3, if_neg (not_lt.mpr h4)]
    have hf1 : ({ st with
                  payments := st.payments ++
                    [{ id := st.nextId, invoiceId := invoiceId, amount := data.amount,
                       method := data.method, paidAt := data.paidAt.getD now,
                       notes := data.notes }],
                  nextId := st.nextId + 1 } : DB).invoices.find?
        (fun i => i.id == invoiceId) = some inv := hinv
    have hf2 := updateInvoiceStatus_find _ invoiceId now inv hf1
    have hf3 := findInvoice_of_find? hf2 hbid
    rw [hf3]
    dsimp only
    refine ⟨_, _, rfl, ?_⟩
    rw [updateInvoiceStatus_payments]
  · simp +decide [BillingService.addPayment, BillingService.findInvoice, stPend, invPend,
      pay50, BillingService.paymentsOf, BillingService.paymentsSum,
      BillingService.updateInvoiceStatus, BillingService.deriveStatus, replaceInvoice,
      Except.map]
  · simp +decide [BillingService.addPayment, BillingService.findInvoice, stStep1, stPend,
      invPend, pay50, pay70, BillingService.paymentsOf, BillingService.paymentsSum,
      BillingService.updateInvoiceStatus, BillingService.deriveStatus, replaceInvoice,
      Except.map, Except.toOption,
      (by norm_num : ((120 : ℚ) - 50 < 70) = False),
      (by norm_num : ((120 : ℚ) ≤ 50 + 70) = True),
      (by norm_num : ((50 : ℚ) + 70) = 120)]
  · intro amount hamt
    simp +decide [BillingService.addPayment, BillingService.findInvoice, stStep2, stStep1,
      stPend, invPend, pay50, pay70, BillingService.paymentsOf, BillingService.paymentsSum,
      BillingService.updateInvoiceStatus, BillingService.deriveStatus, replaceInvoice,
      Except.map, Except.toOption,
      (by norm_num : ((120 : ℚ) - 50 < 70) = False),
      (by norm_num : ((120 : ℚ) ≤ 50 + 70) = True),
      (by norm_num : ((50 : ℚ) + 70) = 120)]

/-- Witness for C4: the 120-total PENDING invoice accepts the first payment
of 50, reaching PARTIAL with paidAmount 50. -/
theorem claims_C4_witness :
    (stPend.invoices.find? (fun i => i.id == 1) = some invPend ∧ invPend.businessId = 1) ∧
    (BillingService.addPayment stPend 1 1 pay50 0).map
        (fun r => (r.1.status, r.1.paidAmount)) = .ok (.PARTIAL, 50) :=
  ⟨⟨rfl, rfl⟩, (claims_C4_addPayment stPend 1 1 0 invPend rfl rfl).2.2.2.1⟩

/-- C2 fails on the code (the spec is the intent): removing the 30 payment
from the CANCELLED, partially paid invoice with total 100 recomputes its
status to PARTIAL with paidAmount 50 — `updateInvoiceStatus` has no
CANCELLED branch and `removePayment` has no status guard at all, so
CANCELLED is not terminal under payment removal. -/
theorem claims_C2_cancelled_recompute :
    (BillingService.removePayment stC2 1 1 32 10).map
        (fun r => (r.1.status, r.1.paidAmount)) = .ok (.PARTIAL, 50) := by
  norm_num [BillingService.removePayment, BillingService.findInvoice, stC2, invC2, payA,
    payB, BillingService.paymentsOf, BillingService.paymentsSum,
    BillingService.updateInvoiceStatus, BillingService.deriveStatus, replaceInvoice,
    Except.map]

end Operly
